import Mathlib

/-!
# Kuveyt Türk sandbox console: polling, selection and transfer submission

A shallow embedding of `frontend/src/App.jsx`.  The React component `App` keeps
four pieces of state (`accounts`, `selected`, `txs`, `pollRef`); the component
`TransferForm` keeps one (`form`).  Every `async` function of the source is cut
at its first `await fetch(...)`: the part before the cut is a function that
issues the request, the part after it is a `...Resume` function that takes the
outcome of the request.  Interval timers live in an explicit timer table that
stands for the browser's list of armed intervals.
-/

namespace KuveytApp

/-! ## JavaScript values -/

/-- The JavaScript values the program handles: what `JSON.parse` can produce,
plus `undefined` (the result of reading an absent property).  Numbers are kept
as integers; the program only ever tests a number for truthiness. -/
inductive JSVal where
  | undefined : JSVal
  | null : JSVal
  | bool (b : Bool) : JSVal
  | num (n : Int) : JSVal
  | str (s : String) : JSVal
  | arr (items : List JSVal) : JSVal
  | obj (fields : List (String × JSVal)) : JSVal

/-- JavaScript `ToBoolean`. -/
def truthy : JSVal → Bool
  | .undefined => false
  | .null => false
  | .bool b => b
  | .num n => n != 0
  | .str s => s != ""
  | .arr _ => true
  | .obj _ => true

/-- The operator `a || b`. -/
def jsOr (a b : JSVal) : JSVal :=
  if truthy a then a else b

/-- Whether a value is `null` or `undefined`. -/
def nullish : JSVal → Bool
  | .undefined => true
  | .null => true
  | _ => false

/-- Property read `v.k` on a value that is not nullish, for the property names
the program reads (`id`, `accountId`, `accounts`, `transactions`, `data`): an
object yields its own property or `undefined`; no built-in prototype defines
any of these names, so every other value yields `undefined`. -/
def getProp (v : JSVal) (k : String) : JSVal :=
  match v with
  | .obj fields => (fields.lookup k).getD .undefined
  | _ => .undefined

/-- Optional chaining `v?.k`. -/
def optProp (v : JSVal) (k : String) : JSVal :=
  if nullish v then .undefined else getProp v k

/-- Whether a value is an array (`Array.isArray`). -/
def isArray : JSVal → Bool
  | .arr _ => true
  | _ => false

/-- The expression `a.id || a.accountId` (lines 47, 48, 58, 59). -/
def accountKey (a : JSVal) : JSVal :=
  jsOr (getProp a "id") (getProp a "accountId")

/-! ## Environment, requests and outcomes -/

/-- What the page provides.  `viteApiBase` is `import.meta.env.VITE_API_BASE`.
`globalAPI` is what the identifier `API` resolves to from inside
`TransferForm`: the `const API` of line 9 is local to the function `App`, and
`TransferForm` (line 70) is a separate top-level function, so the lookup falls
through the module scope to the global object; `none` means the global object
has no such property. -/
structure Env where
  viteApiBase : Option String
  globalAPI : Option String

/-- Line 9: `const API = import.meta.env.VITE_API_BASE || ""`. -/
def API (env : Env) : String :=
  match env.viteApiBase with
  | some s => if s != "" then s else ""
  | none => ""

/-- The state of `TransferForm` (lines 71-76). -/
structure Form where
  fromAccountId : JSVal
  toIban : String
  amount : String
  description : String

/-- Line 71-76: the initial form state for the prop `accountId`. -/
def Form.initial (accountId : JSVal) : Form :=
  { fromAccountId := accountId, toIban := "", amount := "",
    description := "Test payment via sandbox" }

/-- Observable effects.  A request is recorded by its base URL and the data
that determine the rest of the URL and the body:
`getAccounts b` is `fetch(b + "/api/accounts")`,
`getTransactions b id` is `fetch(b + "/api/accounts/" + id + "/transactions")`,
`postTransfer b f` is the `POST` to `b + "/api/payments/transfer"` with body
`JSON.stringify(f)`; `alertText m` is `alert(m)` and `alertJson d` is
`alert(JSON.stringify(d))`. -/
inductive Effect where
  | getAccounts (base : String) : Effect
  | getTransactions (base : String) (id : JSVal) : Effect
  | postTransfer (base : String) (body : Form) : Effect
  | alertText (msg : String) : Effect
  | alertJson (data : JSVal) : Effect

/-- How a `fetch` ends: the promise rejects (network error), or a response
arrives with its `ok` flag and a body; `body = none` is a body that is not
valid JSON, on which `r.json()` rejects. -/
inductive FetchOutcome where
  | networkError : FetchOutcome
  | response (ok : Bool) (body : Option JSVal) : FetchOutcome

/-- Why the promise of an `async` function rejects. -/
inductive Rejection where
  | referenceError : Rejection
  | networkError : Rejection
  | parseError : Rejection
  deriving DecidableEq

/-- How an `async` function ends. -/
inductive Settled where
  | fulfilled : Settled
  | rejected (r : Rejection) : Settled
  deriving DecidableEq

/-- An armed interval timer: its handle, the `id` captured by the callback
`() => fetchTxs(id)`, its period, and how often it has fired.  Its next tick is
due `(ticks + 1) * intervalMs` after it was armed. -/
structure Timer where
  handle : Nat
  target : JSVal
  intervalMs : Nat
  ticks : Nat

/-- A request in flight together with the continuation waiting for it: the
rest of `fetchTxs`, or the rest of `submit` with the account id captured by
its `onSubmitted` closure (line 59). -/
inductive Pending where
  | txs : Pending
  | transfer (refreshId : JSVal) : Pending

/-- The state of the page: the React state of `App` (`accounts`, `selected`,
`txs`, `pollRef.current`), the state of `TransferForm` when it is mounted
(`form`), the browser's armed intervals and the number of timers it has handed
out, the requests in flight, and the log of effects and of rejected promises
(none of which has a handler). -/
structure AppState where
  accounts : JSVal
  selected : Option JSVal
  txs : JSVal
  pollRef : Option Nat
  timers : List Timer
  timerCount : Nat
  form : Option Form
  inflight : List Pending
  effects : List Effect
  uncaught : List Rejection

/-- Lines 4-7: the state after the first render, in a page that has handed out
`c` timers so far. -/
def init (c : Nat) : AppState :=
  { accounts := .arr [], selected := none, txs := .arr [], pollRef := none,
    timers := [], timerCount := c, form := none, inflight := [],
    effects := [], uncaught := [] }

/-! ## The functions of `App` -/

/-- Lines 14-15: `fetchAccounts` up to its `await fetch`. -/
def fetchAccounts (env : Env) (s : AppState) : AppState :=
  { s with effects := s.effects ++ [.getAccounts (API env)] }

/-- Lines 16-18: the rest of `fetchAccounts`, given the outcome of the
request. -/
def fetchAccountsResume (s : AppState) : FetchOutcome → Settled × AppState
  | .networkError => (.rejected .networkError, s)
  | .response false _ =>
      (.fulfilled, { s with effects := s.effects ++ [.alertText "Auth first (Login)"] })
  | .response true none => (.rejected .parseError, s)
  | .response true (some data) =>
      (.fulfilled,
        { s with
          accounts := jsOr (jsOr (optProp data "accounts") (optProp data "data")) (.arr []) })

/-- Lines 21-22: `fetchTxs(id)` up to its `await fetch`. -/
def fetchTxs (env : Env) (id : JSVal) (s : AppState) : AppState :=
  { s with effects := s.effects ++ [.getTransactions (API env) id],
           inflight := s.inflight ++ [.txs] }

/-- Lines 23-24: the rest of `fetchTxs`, given the outcome of the request.
The status of the response is not looked at. -/
def fetchTxsResume (s : AppState) : FetchOutcome → Settled × AppState
  | .networkError => (.rejected .networkError, s)
  | .response _ none => (.rejected .parseError, s)
  | .response _ (some data) =>
      (.fulfilled,
        { s with
          txs := jsOr (jsOr (optProp data "transactions") (optProp data "data")) (.arr []) })

/-- Browser `clearInterval(h)`: disarms the timer with handle `h`, and does
nothing when there is none. -/
def clearInterval (h : Nat) (s : AppState) : AppState :=
  { s with timers := s.timers.filter (fun t => t.handle != h) }

/-- Browser `setInterval(() => fetchTxs(id), ms)`: arms a timer under a fresh
handle, which is a positive integer, and returns the handle. -/
def setInterval (id : JSVal) (ms : Nat) (s : AppState) : Nat × AppState :=
  (s.timerCount + 1,
    { s with timers := s.timers ++ [⟨s.timerCount + 1, id, ms, 0⟩],
             timerCount := s.timerCount + 1 })

/-- Lines 27-30: `startPolling(id)`.  The test `if (pollRef.current)` fails on
`null` and on `0`. -/
def startPolling (id : JSVal) (s : AppState) : AppState :=
  let s1 := match s.pollRef with
    | some h => if h != 0 then clearInterval h s else s
    | none => s
  let r := setInterval id 3000 s1
  { r.2 with pollRef := some r.1 }

/-- Line 33, the cleanup of the effect, run when `App` is torn down:
`pollRef.current && clearInterval(pollRef.current)`. -/
def stop (s : AppState) : AppState :=
  match s.pollRef with
  | some h => if h != 0 then clearInterval h s else s
  | none => s

/-- Lines 55-59: `TransferForm` is rendered exactly when `selected` is truthy.
An instance that stays mounted keeps its state (the argument of `useState` is
read on mount only); a fresh instance starts from `accountId`. -/
def renderForm (selected : JSVal) (old : Option Form) : Option Form :=
  if truthy selected then
    match old with
    | some f => some f
    | none => some (Form.initial (accountKey selected))
  else none

/-- Line 48, the click handler of an account button:
`setSelected(a); fetchTxs(a.id || a.accountId); startPolling(a.id || a.accountId)`,
followed by the render that `setSelected` causes. -/
def select (env : Env) (a : JSVal) (s : AppState) : AppState :=
  let s1 := fetchTxs env (accountKey a) s
  let s2 := startPolling (accountKey a) s1
  { s2 with selected := some a, form := renderForm a s2.form }

/-! ## The functions of `TransferForm` -/

/-- Lines 78-84: `submit` up to its `await fetch`, for the form state `form`
and the account id `refreshId` held by the `onSubmitted` closure.  Evaluating
the URL reads the identifier `API`; when it does not resolve, a
`ReferenceError` is thrown before `fetch` is called. -/
def submit (env : Env) (form : Form) (refreshId : JSVal) (s : AppState) :
    Except Rejection AppState :=
  match env.globalAPI with
  | none => .error .referenceError
  | some base =>
      .ok { s with effects := s.effects ++ [.postTransfer base form],
                   inflight := s.inflight ++ [.transfer refreshId] }

/-- Lines 85-87: the rest of `submit`, given the outcome of the request;
`onSubmitted` is `() => fetchTxs(refreshId)`. -/
def submitResume (env : Env) (refreshId : JSVal) (s : AppState) :
    FetchOutcome → Settled × AppState
  | .networkError => (.rejected .networkError, s)
  | .response _ none => (.rejected .parseError, s)
  | .response false (some data) =>
      (.fulfilled, { s with effects := s.effects ++ [.alertJson data] })
  | .response true (some _) => (.fulfilled, fetchTxs env refreshId s)

/-! ## The event loop -/

/-- What can happen to the page: an account button is clicked, the timer with
a given handle fires, the request at a given position of the in-flight list
ends, a field of the transfer form is edited, the form is submitted. -/
inductive Event where
  | select (a : JSVal) : Event
  | tick (h : Nat) : Event
  | complete (i : Nat) (o : FetchOutcome) : Event
  | editToIban (v : String) : Event
  | editAmount (v : String) : Event
  | editDescription (v : String) : Event
  | submit : Event

/-- Records how an `async` function ended: a rejected promise has no handler
anywhere in the source, so it is logged as uncaught. -/
def settle (r : Settled × AppState) : AppState :=
  match r.1 with
  | .fulfilled => r.2
  | .rejected e => { r.2 with uncaught := r.2.uncaught ++ [e] }

/-- Adds one to the tick count of the timer with handle `h`. -/
def bumpTimer (h : Nat) (t : Timer) : Timer :=
  if t.handle == h then { t with ticks := t.ticks + 1 } else t

/-- The timer with handle `h` fires (line 29): its callback calls
`fetchTxs(id)`; the timer stays armed.  Nothing happens when no such timer is
armed. -/
def tick (env : Env) (h : Nat) (s : AppState) : AppState :=
  match s.timers.find? (fun t => t.handle == h) with
  | none => s
  | some t => fetchTxs env t.target { s with timers := s.timers.map (bumpTimer h) }

/-- The request at position `i` of the in-flight list ends with outcome `o`:
the function waiting for it resumes. -/
def complete (env : Env) (i : Nat) (o : FetchOutcome) (s : AppState) : AppState :=
  match s.inflight.get? i with
  | none => s
  | some .txs =>
      settle (fetchTxsResume { s with inflight := s.inflight.eraseIdx i } o)
  | some (.transfer refreshId) =>
      settle (submitResume env refreshId { s with inflight := s.inflight.eraseIdx i } o)

/-- The mounted form is submitted: `submit` runs with the current form state
and the `onSubmitted` closure of the current render (lines 58-59). -/
def onSubmit (env : Env) (s : AppState) : AppState :=
  match s.form, s.selected with
  | some f, some a =>
      match submit env f (accountKey a) s with
      | .ok s1 => s1
      | .error e => { s with uncaught := s.uncaught ++ [e] }
  | _, _ => s

/-- One event.  An account button exists only for an entry that is not nullish
(line 47 reads `a.id` while rendering); the form can be edited and submitted
only while it is mounted. -/
def step (env : Env) (s : AppState) : Event → AppState
  | .select a => if nullish a then s else select env a s
  | .tick h => tick env h s
  | .complete i o => complete env i o s
  | .editToIban v => { s with form := s.form.map (fun f => { f with toIban := v }) }
  | .editAmount v => { s with form := s.form.map (fun f => { f with amount := v }) }
  | .editDescription v =>
      { s with form := s.form.map (fun f => { f with description := v }) }
  | .submit => onSubmit env s

/-- Runs a sequence of events from a state. -/
def run (env : Env) (s : AppState) (evs : List Event) : AppState :=
  evs.foldl (step env) s

/-- The account clicked last, after one more event: a click on the button of
an account replaces it, every other event keeps it. -/
def noteClick (last : Option JSVal) : Event → Option JSVal
  | .select a => if nullish a then last else some a
  | _ => last

/-- The account of the last click on an account button in a sequence of
events, if there is one. -/
def lastSelected (evs : List Event) : Option JSVal :=
  evs.foldl noteClick none

/-! ## Derived notions used in the statements -/

/-- The part of the state the poller lives in. -/
def pollerView (s : AppState) : Option Nat × List Timer × Nat :=
  (s.pollRef, s.timers, s.timerCount)

/-- The poller matches the selection `sel`: without a selection no timer is
armed and `pollRef.current` is `null`; with a selection the only armed timer is
the one handed out last, `pollRef.current` holds its handle, it targets the
selected account and has a period of 3000 ms. -/
def PollerInv (sel : Option JSVal) (v : Option Nat × List Timer × Nat) : Prop :=
  match sel with
  | none => v.2.1 = [] ∧ v.1 = none
  | some a =>
      ∃ k, v.2.1 = [⟨v.2.2, accountKey a, 3000, k⟩] ∧ v.1 = some v.2.2 ∧ v.2.2 ≠ 0

/-- One round of polling on the armed timer: it fires, and the request it
issues (appended last to the in-flight list) ends with outcome `o`. -/
def pollRound (env : Env) (s : AppState) (o : FetchOutcome) : AppState :=
  match s.timers with
  | [] => s
  | t :: _ => complete env s.inflight.length o (tick env t.handle s)

/-- Consecutive rounds of polling, one per outcome. -/
def pollRounds (env : Env) (s : AppState) (os : List FetchOutcome) : AppState :=
  os.foldl (pollRound env) s

/-- Whether an event is a click on an account button. -/
def isClick : Event → Bool
  | .select _ => true
  | _ => false

/-- Whether an event is a tick of the timer with handle `h`. -/
def firesTimer (h : Nat) : Event → Bool
  | .tick h1 => h1 == h
  | _ => false

/-- Whether a value is falsy or an array. -/
def listOrFalsy (v : JSVal) : Bool :=
  !truthy v || isArray v

/-- Whether a parsed body is an object with an own property `k`. -/
def hasField (data : JSVal) (k : String) : Bool :=
  match data with
  | .obj fields => (fields.lookup k).isSome
  | _ => false

/-- A page in which the identifier `API` does not resolve from `TransferForm`
(no global of that name), with no `VITE_API_BASE`. -/
def plainPage : Env :=
  { viteApiBase := none, globalAPI := none }

/-- A page whose global object has a property `API` equal to `""`. -/
def pageWithGlobalAPI : Env :=
  { viteApiBase := none, globalAPI := some "" }

/-- The account `{id: "acc-1"}`. -/
def acc1 : JSVal := .obj [("id", .str "acc-1")]

/-- The account `{id: "acc-2"}`. -/
def acc2 : JSVal := .obj [("id", .str "acc-2")]

/-! ## Frame lemmas -/

theorem settle_pollerView (r : Settled × AppState) :
    pollerView (settle r) = pollerView r.2 := by
  unfold settle
  cases r.1 <;> rfl

theorem settle_selected (r : Settled × AppState) :
    (settle r).selected = r.2.selected := by
  unfold settle
  cases r.1 <;> rfl

theorem fetchTxsResume_pollerView (s : AppState) (o : FetchOutcome) :
    pollerView (fetchTxsResume s o).2 = pollerView s := by
  rcases o with _ | ⟨ok, _ | data⟩ <;> rfl

theorem fetchTxsResume_selected (s : AppState) (o : FetchOutcome) :
    (fetchTxsResume s o).2.selected = s.selected := by
  rcases o with _ | ⟨ok, _ | data⟩ <;> rfl

theorem submitResume_pollerView (env : Env) (id : JSVal) (s : AppState) (o : FetchOutcome) :
    pollerView (submitResume env id s o).2 = pollerView s := by
  rcases o with _ | ⟨_ | _, _ | data⟩ <;> rfl

theorem submitResume_selected (env : Env) (id : JSVal) (s : AppState) (o : FetchOutcome) :
    (submitResume env id s o).2.selected = s.selected := by
  rcases o with _ | ⟨_ | _, _ | data⟩ <;> rfl

/-- Completing a request leaves the poller and the selection alone. -/
theorem complete_frame (env : Env) (s : AppState) (i : Nat) (o : FetchOutcome) :
    pollerView (complete env i o s) = pollerView s ∧
      (complete env i o s).selected = s.selected := by
  unfold complete
  cases hp : s.inflight.get? i with
  | none => exact ⟨rfl, rfl⟩
  | some p =>
    cases p with
    | txs =>
      simp only
      rw [settle_pollerView, settle_selected, fetchTxsResume_pollerView,
        fetchTxsResume_selected]
      exact ⟨rfl, rfl⟩
    | transfer id =>
      simp only
      rw [settle_pollerView, settle_selected, submitResume_pollerView,
        submitResume_selected]
      exact ⟨rfl, rfl⟩

/-- Submitting the form leaves the poller and the selection alone. -/
theorem onSubmit_frame (env : Env) (s : AppState) :
    pollerView (onSubmit env s) = pollerView s ∧
      (onSubmit env s).selected = s.selected := by
  rcases s with ⟨acc, sel, txs, pr, tm, tc, form, infl, eff, unc⟩
  rcases form with _ | f
  · exact ⟨rfl, rfl⟩
  · rcases sel with _ | a
    · exact ⟨rfl, rfl⟩
    · rcases env with ⟨vb, _ | base⟩ <;> exact ⟨rfl, rfl⟩

/-! ## The poller invariant -/

theorem select_inv (env : Env) (a : JSVal) (s : AppState)
    (h : PollerInv s.selected (pollerView s)) :
    PollerInv (select env a s).selected (pollerView (select env a s)) := by
  rcases s with ⟨acc, sel, txs, pr, tm, tc, form, infl, eff, unc⟩
  rcases sel with _ | b
  · obtain ⟨h1, h2⟩ := h
    simp only [pollerView] at h1 h2
    subst h1 h2
    exact ⟨0, rfl, rfl, Nat.succ_ne_zero _⟩
  · obtain ⟨k, h1, h2, h3⟩ := h
    simp only [pollerView] at h1 h2 h3
    subst h1 h2
    refine ⟨0, ?_, rfl, Nat.succ_ne_zero _⟩
    simp [select, startPolling, fetchTxs, setInterval, clearInterval, pollerView, h3]

theorem tick_inv (env : Env) (h : Nat) (s : AppState)
    (hi : PollerInv s.selected (pollerView s)) :
    PollerInv (tick env h s).selected (pollerView (tick env h s)) := by
  rcases s with ⟨acc, sel, txs, pr, tm, tc, form, infl, eff, unc⟩
  rcases sel with _ | b
  · obtain ⟨h1, h2⟩ := hi
    simp only [pollerView] at h1 h2
    subst h1 h2
    exact ⟨rfl, rfl⟩
  · obtain ⟨k, h1, h2, h3⟩ := hi
    simp only [pollerView] at h1 h2 h3
    subst h1 h2
    by_cases hh : tc = h
    · subst hh
      have ht : tick env tc ⟨acc, some b, txs, some tc, [⟨tc, accountKey b, 3000, k⟩], tc,
          form, infl, eff, unc⟩ =
          ⟨acc, some b, txs, some tc, [⟨tc, accountKey b, 3000, k + 1⟩], tc, form,
            infl ++ [.txs], eff ++ [.getTransactions (API env) (accountKey b)], unc⟩ := by
        simp [tick, fetchTxs, bumpTimer]
      rw [ht]
      exact ⟨k + 1, rfl, rfl, h3⟩
    · have ht : tick env h ⟨acc, some b, txs, some tc, [⟨tc, accountKey b, 3000, k⟩], tc,
          form, infl, eff, unc⟩ =
          ⟨acc, some b, txs, some tc, [⟨tc, accountKey b, 3000, k⟩], tc, form,
            infl, eff, unc⟩ := by
        simp [tick, hh]
      rw [ht]
      exact ⟨k, rfl, rfl, h3⟩

/-- Every event preserves the poller invariant. -/
theorem step_inv (env : Env) (s : AppState) (ev : Event)
    (h : PollerInv s.selected (pollerView s)) :
    PollerInv (step env s ev).selected (pollerView (step env s ev)) := by
  cases ev with
  | select a =>
    simp only [step]
    split
    · exact h
    · exact select_inv env a s h
  | tick t => exact tick_inv env t s h
  | complete i o =>
    simp only [step]
    rw [(complete_frame env s i o).1, (complete_frame env s i o).2]
    exact h
  | editToIban v => exact h
  | editAmount v => exact h
  | editDescription v => exact h
  | submit =>
    simp only [step]
    rw [(onSubmit_frame env s).1, (onSubmit_frame env s).2]
    exact h

theorem run_append (env : Env) (s : AppState) (evs : List Event) (ev : Event) :
    run env s (evs ++ [ev]) = step env (run env s evs) ev := by
  simp [run, List.foldl_append]

theorem lastSelected_append (evs : List Event) (ev : Event) :
    lastSelected (evs ++ [ev]) = noteClick (lastSelected evs) ev := by
  simp [lastSelected, List.foldl_append]

/-- The `selected` state is the account of the last click. -/
theorem step_selected (env : Env) (s : AppState) (ev : Event) :
    (step env s ev).selected = noteClick s.selected ev := by
  cases ev with
  | select a =>
    simp only [step, noteClick]
    split <;> rfl
  | tick t =>
    simp only [step, tick]
    split <;> rfl
  | complete i o => exact (complete_frame env s i o).2
  | editToIban v => rfl
  | editAmount v => rfl
  | editDescription v => rfl
  | submit => exact (onSubmit_frame env s).2

/-- In every reachable state the selection is the account clicked last and the
poller invariant holds. -/
theorem reachable_inv (env : Env) (c : Nat) (evs : List Event) :
    (run env (init c) evs).selected = lastSelected evs ∧
      PollerInv (run env (init c) evs).selected (pollerView (run env (init c) evs)) := by
  induction evs using List.reverseRecOn with
  | nil => exact ⟨rfl, rfl, rfl⟩
  | append_singleton evs ev ih =>
    rw [run_append, lastSelected_append]
    refine ⟨?_, step_inv env _ ev ih.2⟩
    rw [step_selected, ih.1]

/-! ## One round of polling -/

/-- Completing the request appended last resumes `fetchTxs` on the state with
that request removed. -/
theorem complete_last_txs (env : Env) (s : AppState) (infl : List Pending)
    (o : FetchOutcome) (h : s.inflight = infl ++ [.txs]) :
    complete env infl.length o s = settle (fetchTxsResume { s with inflight := infl } o) := by
  unfold complete
  have h1 : s.inflight.get? infl.length = some .txs := by simp [h]
  have h2 : s.inflight.eraseIdx infl.length = infl := by
    rw [h, List.eraseIdx_append_of_length_le (Nat.le_refl _)]
    simp
  rw [h1, h2]

/-- A round of polling on a state with one armed timer: the timer stays armed
with one more tick, the reference to it, the selection and the in-flight list
are as before. -/
theorem pollRound_spec (env : Env) (s : AppState) (o : FetchOutcome) (t : Timer)
    (h : s.timers = [t]) :
    (pollRound env s o).timers = [{ t with ticks := t.ticks + 1 }] ∧
      (pollRound env s o).pollRef = s.pollRef ∧
      (pollRound env s o).selected = s.selected ∧
      (pollRound env s o).inflight = s.inflight := by
  rcases s with ⟨acc, sel, txs, pr, tm, tc, form, infl, eff, unc⟩
  simp only at h
  subst h
  have ht : tick env t.handle ⟨acc, sel, txs, pr, [t], tc, form, infl, eff, unc⟩ =
      ⟨acc, sel, txs, pr, [{ t with ticks := t.ticks + 1 }], tc, form, infl ++ [.txs],
        eff ++ [.getTransactions (API env) t.target], unc⟩ := by
    simp [tick, fetchTxs, bumpTimer]
  simp only [pollRound]
  rw [ht, complete_last_txs env _ infl o rfl]
  rcases o with _ | ⟨ok, _ | data⟩ <;> exact ⟨rfl, rfl, rfl, rfl⟩

/-- Consecutive rounds of polling on a state with one armed timer. -/
theorem pollRounds_spec (env : Env) (os : List FetchOutcome) (s : AppState) (t : Timer)
    (h : s.timers = [t]) :
    (pollRounds env s os).timers = [{ t with ticks := t.ticks + os.length }] ∧
      (pollRounds env s os).pollRef = s.pollRef ∧
      (pollRounds env s os).selected = s.selected ∧
      (pollRounds env s os).inflight = s.inflight := by
  induction os generalizing s t with
  | nil => exact ⟨by simp [pollRounds, h], rfl, rfl, rfl⟩
  | cons o rest ih =>
    have h1 := pollRound_spec env s o t h
    have h2 := ih (pollRound env s o) _ h1.1
    simp only [pollRounds, List.foldl_cons] at h2 ⊢
    refine ⟨?_, h2.2.1.trans h1.2.1, h2.2.2.1.trans h1.2.2.1, h2.2.2.2.trans h1.2.2.2⟩
    rw [h2.1]
    simp [Nat.add_assoc, Nat.add_comm 1]

/-- An event other than a click keeps a lone armed timer armed; a tick of that
timer adds one to its tick count. -/
theorem step_keeps_timer (env : Env) (s : AppState) (ev : Event) (t : Timer)
    (h : s.timers = [t]) (hc : isClick ev = false) :
    (step env s ev).timers =
        [{ t with ticks := t.ticks + (if firesTimer t.handle ev then 1 else 0) }] ∧
      (step env s ev).pollRef = s.pollRef := by
  cases ev with
  | select a => simp [isClick] at hc
  | tick h1 =>
    rcases s with ⟨acc, sel, txs, pr, tm, tc, form, infl, eff, unc⟩
    simp only at h
    subst h
    by_cases hh : h1 = t.handle
    · subst hh
      simp [step, tick, fetchTxs, bumpTimer, firesTimer]
    · have hh2 : ¬ t.handle = h1 := fun e => hh e.symm
      simp [step, tick, firesTimer, hh, hh2]
  | complete i o =>
    have hf := (complete_frame env s i o).1
    simp only [pollerView, Prod.mk.injEq] at hf
    simp only [step, firesTimer]
    exact ⟨by rw [hf.2.1, h]; rfl, hf.1⟩
  | editToIban v => exact ⟨by simp [step, firesTimer, h], rfl⟩
  | editAmount v => exact ⟨by simp [step, firesTimer, h], rfl⟩
  | editDescription v => exact ⟨by simp [step, firesTimer, h], rfl⟩
  | submit =>
    have hf := (onSubmit_frame env s).1
    simp only [pollerView, Prod.mk.injEq] at hf
    simp only [step, firesTimer]
    exact ⟨by rw [hf.2.1, h]; rfl, hf.1⟩

/-- A sequence of events without a click keeps a lone armed timer armed and
counts its ticks. -/
theorem run_keeps_timer (env : Env) (evs : List Event) (s : AppState) (t : Timer)
    (h : s.timers = [t]) (hc : evs.all (fun e => !isClick e) = true) :
    (run env s evs).timers =
        [{ t with ticks := t.ticks + evs.countP (firesTimer t.handle) }] ∧
      (run env s evs).pollRef = s.pollRef := by
  induction evs generalizing s t with
  | nil => exact ⟨by simp [run, h], rfl⟩
  | cons ev rest ih =>
    simp only [List.all_cons, Bool.and_eq_true, Bool.not_eq_true'] at hc
    have h1 := step_keeps_timer env s ev t h hc.1
    have h2 := ih (step env s ev) _ h1.1 hc.2
    simp only [run, List.foldl_cons] at h2 ⊢
    refine ⟨?_, h2.2.trans h1.2⟩
    rw [h2.1]
    by_cases hf : firesTimer t.handle ev = true
    · simp [hf, List.countP_cons, Nat.add_assoc, Nat.add_comm 1]
    · simp [hf, List.countP_cons]

/-- The snapshot after a round of polling whose request is answered with a
JSON body. -/
theorem pollRound_txs (env : Env) (s : AppState) (ok : Bool) (data : JSVal) (t : Timer)
    (h : s.timers = [t]) :
    (pollRound env s (.response ok (some data))).txs =
      jsOr (jsOr (optProp data "transactions") (optProp data "data")) (.arr []) := by
  rcases s with ⟨acc, sel, txs, pr, tm, tc, form, infl, eff, unc⟩
  simp only at h
  subst h
  have ht : tick env t.handle ⟨acc, sel, txs, pr, [t], tc, form, infl, eff, unc⟩ =
      ⟨acc, sel, txs, pr, [{ t with ticks := t.ticks + 1 }], tc, form, infl ++ [.txs],
        eff ++ [.getTransactions (API env) t.target], unc⟩ := by
    simp [tick, fetchTxs, bumpTimer]
  simp only [pollRound]
  rw [ht, complete_last_txs env _ infl _ rfl]
  rfl

/-- Reading a field that the body lacks yields `undefined`. -/
theorem optProp_of_not_hasField (data : JSVal) (k : String) (h : hasField data k = false) :
    optProp data k = .undefined := by
  unfold optProp
  split
  · rfl
  · cases data with
    | obj fields =>
      simp only [hasField] at h
      simp only [getProp]
      cases hl : fields.lookup k with
      | none => rfl
      | some v => simp [hl] at h
    | _ => rfl

/-- The chain `a || b || []` is an array when `a` and `b` are each falsy or an
array. -/
theorem isArray_jsOr_chain (a b : JSVal) (ha : listOrFalsy a = true)
    (hb : listOrFalsy b = true) :
    isArray (jsOr (jsOr a b) (.arr [])) = true := by
  unfold listOrFalsy at ha hb
  unfold jsOr
  cases hta : truthy a <;> cases htb : truthy b <;> simp_all [isArray]

/-- Completing the transfer request appended last resumes `submit` on the
state with that request removed. -/
theorem complete_last_transfer (env : Env) (s : AppState) (infl : List Pending)
    (id : JSVal) (o : FetchOutcome) (h : s.inflight = infl ++ [.transfer id]) :
    complete env infl.length o s =
      settle (submitResume env id { s with inflight := infl } o) := by
  unfold complete
  have h1 : s.inflight.get? infl.length = some (.transfer id) := by simp [h]
  have h2 : s.inflight.eraseIdx infl.length = infl := by
    rw [h, List.eraseIdx_append_of_length_le (Nat.le_refl _)]
    simp
  rw [h1, h2]

/-! ## Claims about the poller -/

/-- C1: in every state reachable from the initial state by account clicks,
timer ticks, request completions, form edits and transfer submissions, at most
one timer is armed; before any account was clicked none is armed; once an
account was clicked exactly one is armed, `pollRef.current` holds its handle,
its period is 3000 ms and the id it fetches is `a.id || a.accountId` of the
account clicked last.  In particular, after a click on `A` followed by a click
on `B` (equal or not) exactly one timer is armed and it targets `B`. -/
theorem C1_one_timer_targets_last_selected (env : Env) (c : Nat) (evs : List Event) :
    (run env (init c) evs).timers.length ≤ 1 ∧
      (match lastSelected evs with
        | none => (run env (init c) evs).timers = []
        | some a =>
            ∃ h k, (run env (init c) evs).timers = [⟨h, accountKey a, 3000, k⟩] ∧
              (run env (init c) evs).pollRef = some h) ∧
      (∀ fa fb : List (String × JSVal),
        ∃ h, (run env (init c) [.select (.obj fa), .select (.obj fb)]).timers =
          [⟨h, accountKey (.obj fb), 3000, 0⟩]) := by
  have hr := reachable_inv env c evs
  have hinv := hr.2
  rw [hr.1] at hinv
  refine ⟨?_, ?_, ?_⟩
  · cases hl : lastSelected evs with
    | none =>
      rw [hl] at hinv
      have h1 : (run env (init c) evs).timers = [] := hinv.1
      simp [h1]
    | some a =>
      rw [hl] at hinv
      obtain ⟨k, h1, _, _⟩ := hinv
      have h1 : (run env (init c) evs).timers = [⟨_, accountKey a, 3000, k⟩] := h1
      simp [h1]
  · cases hl : lastSelected evs with
    | none =>
      rw [hl] at hinv
      exact hinv.1
    | some a =>
      rw [hl] at hinv
      obtain ⟨k, h1, h2, _⟩ := hinv
      exact ⟨_, k, h1, h2⟩
  · intro fa fb
    refine ⟨c + 1 + 1, ?_⟩
    simp [run, step, nullish, select, startPolling, fetchTxs, setInterval, clearInterval,
      init]

/-- C10: the cleanup `stop` is a total function that changes nothing but the
timer table and logs no error; in every reachable state no timer is armed
after it; on a state without an armed timer it changes nothing; and applying
it twice gives the same state as applying it once. -/
theorem C10_stop_idempotent (env : Env) (c : Nat) (evs : List Event) (s : AppState) :
    (stop (run env (init c) evs)).timers = [] ∧
      stop s = { s with timers := (stop s).timers } ∧
      stop { s with timers := [] } = { s with timers := [] } ∧
      stop (stop s) = stop s := by
  refine ⟨?_, ?_, ?_, ?_⟩
  · have hr := reachable_inv env c evs
    have hinv := hr.2
    generalize run env (init c) evs = r at hinv
    rcases r with ⟨acc, sel, txs, pr, tm, tc, form, infl, eff, unc⟩
    rcases sel with _ | b
    · obtain ⟨h1, h2⟩ := hinv
      simp only [pollerView] at h1 h2
      subst h1 h2
      rfl
    · obtain ⟨k, h1, h2, h3⟩ := hinv
      simp only [pollerView] at h1 h2 h3
      subst h1 h2
      simp [stop, clearInterval, h3]
  · rcases s with ⟨acc, sel, txs, pr, tm, tc, form, infl, eff, unc⟩
    rcases pr with _ | h
    · rfl
    · by_cases hh : h = 0 <;> simp [stop, clearInterval, hh]
  · rcases s with ⟨acc, sel, txs, pr, tm, tc, form, infl, eff, unc⟩
    rcases pr with _ | h
    · rfl
    · by_cases hh : h = 0 <;> simp [stop, clearInterval, hh]
  · rcases s with ⟨acc, sel, txs, pr, tm, tc, form, infl, eff, unc⟩
    rcases pr with _ | h
    · rfl
    · by_cases hh : h = 0 <;> simp [stop, clearInterval, hh, List.filter_filter]

/-- C8: while an account is selected, after any number `N` of consecutive
polling rounds, whatever the outcome of each round's request (network error,
non-success status, unparsable body, or success), the timer armed at the start
is still the only armed timer: same handle, same account, same 3000 ms period,
`N` more ticks counted, so its next tick is the one due next on its schedule;
`pollRef.current` still holds its handle and every request issued by a tick
has ended.  The same holds when ticks and completions interleave in any order:
after any sequence of events without a click the timer is armed as before and
has counted exactly the ticks of that sequence. -/
theorem C8_failed_ticks_keep_timer (env : Env) (c : Nat) (evs : List Event) (a : JSVal)
    (os : List FetchOutcome) (later : List Event) (hsel : lastSelected evs = some a)
    (hno : later.all (fun e => !isClick e) = true) :
    ∃ h k, (run env (init c) evs).timers = [⟨h, accountKey a, 3000, k⟩] ∧
      (pollRounds env (run env (init c) evs) os).timers =
        [⟨h, accountKey a, 3000, k + os.length⟩] ∧
      (pollRounds env (run env (init c) evs) os).pollRef = some h ∧
      (pollRounds env (run env (init c) evs) os).inflight =
        (run env (init c) evs).inflight ∧
      (run env (run env (init c) evs) later).timers =
        [⟨h, accountKey a, 3000, k + later.countP (firesTimer h)⟩] ∧
      (run env (run env (init c) evs) later).pollRef = some h := by
  have hr := reachable_inv env c evs
  have hinv := hr.2
  rw [hr.1, hsel] at hinv
  obtain ⟨k, h1, h2, _⟩ := hinv
  have hp := pollRounds_spec env os _ _ h1
  have hl := run_keeps_timer env later _ _ h1 hno
  exact ⟨_, k, h1, hp.1, hp.2.1.trans h2, hp.2.2.2, hl.1, hl.2.trans h2⟩

/-- Witness of C8: after a click on `{id: "acc-1"}`, three rounds whose
requests fail in the three possible ways, and two ticks whose requests fail
only after the second tick. -/
theorem C8_failed_ticks_keep_timer_witness :
    lastSelected [.select acc1] = some acc1 ∧
      List.all [Event.tick 1, .tick 1, .complete 1 .networkError,
        .complete 1 (.response false none)] (fun e => !isClick e) = true ∧
      ∃ h k, (run plainPage (init 0) [.select acc1]).timers = [⟨h, accountKey acc1, 3000, k⟩] ∧
        (pollRounds plainPage (run plainPage (init 0) [.select acc1])
            [.networkError, .response false none,
              .response false (some (.obj [("error", .str "x")]))]).timers =
          [⟨h, accountKey acc1, 3000, k + 3⟩] ∧
        (pollRounds plainPage (run plainPage (init 0) [.select acc1])
            [.networkError, .response false none,
              .response false (some (.obj [("error", .str "x")]))]).pollRef = some h ∧
        (pollRounds plainPage (run plainPage (init 0) [.select acc1])
            [.networkError, .response false none,
              .response false (some (.obj [("error", .str "x")]))]).inflight =
          (run plainPage (init 0) [.select acc1]).inflight ∧
        (run plainPage (run plainPage (init 0) [.select acc1])
            [.tick 1, .tick 1, .complete 1 .networkError,
              .complete 1 (.response false none)]).timers =
          [⟨h, accountKey acc1, 3000,
            k + List.countP (firesTimer h) [.tick 1, .tick 1, .complete 1 .networkError,
              .complete 1 (.response false none)]⟩] ∧
        (run plainPage (run plainPage (init 0) [.select acc1])
            [.tick 1, .tick 1, .complete 1 .networkError,
              .complete 1 (.response false none)]).pollRef = some h :=
  ⟨rfl, rfl, C8_failed_ticks_keep_timer plainPage 0 [.select acc1] acc1
    [.networkError, .response false none,
      .response false (some (.obj [("error", .str "x")]))]
    [.tick 1, .tick 1, .complete 1 .networkError, .complete 1 (.response false none)]
    rfl rfl⟩

/-! ## Claims about the snapshot -/

/-- C6: while an account is selected, if the request of a poll tick is
answered (with any status) by the body `{transactions: L}` or by the body
`{data: L}` for a list `L`, the snapshot after that round is `L` itself,
whatever the snapshot was before. -/
theorem C6_snapshot_equals_answer (env : Env) (c : Nat) (evs : List Event) (a : JSVal)
    (L : List JSVal) (ok : Bool) (hsel : lastSelected evs = some a) :
    (pollRound env (run env (init c) evs)
        (.response ok (some (.obj [("transactions", .arr L)])))).txs = .arr L ∧
      (pollRound env (run env (init c) evs)
        (.response ok (some (.obj [("data", .arr L)])))).txs = .arr L := by
  have hr := reachable_inv env c evs
  have hinv := hr.2
  rw [hr.1, hsel] at hinv
  obtain ⟨k, h1, _, _⟩ := hinv
  constructor
  · rw [pollRound_txs env _ ok _ _ h1]
    simp [optProp, nullish, getProp, List.lookup, jsOr, truthy]
  · rw [pollRound_txs env _ ok _ _ h1]
    simp [optProp, nullish, getProp, List.lookup, jsOr, truthy]

/-- Witness of C6: click on `{id: "acc-1"}`, the immediate fetch is answered
with `[]`, then a tick is answered with `[{id: "t1", amount: 10}]`. -/
theorem C6_snapshot_equals_answer_witness :
    lastSelected [.select acc1,
        .complete 0 (.response true (some (.obj [("transactions", .arr [])])))] = some acc1 ∧
      (pollRound plainPage
          (run plainPage (init 0) [.select acc1,
            .complete 0 (.response true (some (.obj [("transactions", .arr [])])))])
          (.response true (some (.obj [("transactions",
            .arr [.obj [("id", .str "t1"), ("amount", .num 10)]])])))).txs =
        .arr [.obj [("id", .str "t1"), ("amount", .num 10)]] ∧
      (pollRound plainPage
          (run plainPage (init 0) [.select acc1,
            .complete 0 (.response true (some (.obj [("transactions", .arr [])])))])
          (.response true (some (.obj [("data",
            .arr [.obj [("id", .str "t1"), ("amount", .num 10)]])])))).txs =
        .arr [.obj [("id", .str "t1"), ("amount", .num 10)]] :=
  ⟨rfl, C6_snapshot_equals_answer plainPage 0 _ acc1
    [.obj [("id", .str "t1"), ("amount", .num 10)]] true rfl⟩

/-- C7, as stated, fails.  After a successful accounts fetch has stored
`[{id: "acc-1"}]`, a second accounts fetch answered with a non-success status
and the body `{error: "unauthorized"}`, which has neither an `accounts` nor a
`data` field, leaves the accounts list at `[{id: "acc-1"}]`, not at the empty
list.  And a transactions fetch answered with `{transactions: "abc"}` stores
the string `"abc"`, which is not a list. -/
theorem C7_auth_failure_keeps_accounts :
    hasField (.obj [("error", .str "unauthorized")]) "accounts" = false ∧
      hasField (.obj [("error", .str "unauthorized")]) "data" = false ∧
      (fetchAccountsResume
          (fetchAccounts plainPage
            (fetchAccountsResume (fetchAccounts plainPage (init 0))
              (.response true (some (.obj [("accounts", .arr [acc1])])))).2)
          (.response false (some (.obj [("error", .str "unauthorized")])))).2.accounts =
        .arr [acc1] ∧
      JSVal.arr [acc1] ≠ JSVal.arr [] ∧
      (fetchTxsResume (fetchTxs plainPage (.str "acc-1") (init 0))
          (.response true (some (.obj [("transactions", .str "abc")])))).2.txs =
        .str "abc" ∧
      isArray (.str "abc") = false := by
  refine ⟨rfl, rfl, rfl, ?_, rfl, rfl⟩
  intro h
  injection h with h1
  exact List.cons_ne_nil _ _ h1

/-- C7, amended.  A transactions fetch answered, with any status, by a body
that has neither a `transactions` nor a `data` field (in particular `null`)
completes and stores the empty list as the snapshot.  An accounts fetch reads
the body only on a success status: a body with neither an `accounts` nor a
`data` field then stores the empty list as the accounts; on a non-success
status the body is ignored, `"Auth first (Login)"` is alerted and the accounts
are kept.  The stored value is a list whenever each of the two fields read is
falsy or a list; a truthy first field is stored as it is. -/
theorem C7_missing_fields_amended (s : AppState) (data : JSVal) (ok : Bool)
    (body : Option JSVal) :
    (hasField data "transactions" = false → hasField data "data" = false →
        fetchTxsResume s (.response ok (some data)) =
          (.fulfilled, { s with txs := .arr [] })) ∧
      (hasField data "accounts" = false → hasField data "data" = false →
        fetchAccountsResume s (.response true (some data)) =
          (.fulfilled, { s with accounts := .arr [] })) ∧
      fetchAccountsResume s (.response false body) =
        (.fulfilled, { s with effects := s.effects ++ [.alertText "Auth first (Login)"] }) ∧
      (listOrFalsy (optProp data "transactions") = true →
        listOrFalsy (optProp data "data") = true →
        isArray (fetchTxsResume s (.response ok (some data))).2.txs = true) ∧
      (listOrFalsy (optProp data "accounts") = true →
        listOrFalsy (optProp data "data") = true →
        isArray (fetchAccountsResume s (.response true (some data))).2.accounts = true) ∧
      (truthy (optProp data "transactions") = true →
        (fetchTxsResume s (.response ok (some data))).2.txs = optProp data "transactions") ∧
      (truthy (optProp data "accounts") = true →
        (fetchAccountsResume s (.response true (some data))).2.accounts =
          optProp data "accounts") := by
  refine ⟨?_, ?_, rfl, ?_, ?_, ?_, ?_⟩
  · intro h1 h2
    simp [fetchTxsResume, optProp_of_not_hasField _ _ h1, optProp_of_not_hasField _ _ h2,
      jsOr, truthy]
  · intro h1 h2
    simp [fetchAccountsResume, optProp_of_not_hasField _ _ h1,
      optProp_of_not_hasField _ _ h2, jsOr, truthy]
  · intro h1 h2
    exact isArray_jsOr_chain _ _ h1 h2
  · intro h1 h2
    exact isArray_jsOr_chain _ _ h1 h2
  · intro h1
    simp [fetchTxsResume, jsOr, h1]
  · intro h1
    simp [fetchAccountsResume, jsOr, h1]

/-- Witness of C7, amended: a `null` body on a state whose snapshot and
accounts are not empty, and the body `{transactions: "abc"}`. -/
theorem C7_missing_fields_amended_witness :
    (fetchTxsResume { init 0 with txs := .arr [.num 1], accounts := .arr [acc1] }
        (.response false (some .null))).2.txs = .arr [] ∧
      (fetchAccountsResume { init 0 with txs := .arr [.num 1], accounts := .arr [acc1] }
        (.response true (some .null))).2.accounts = .arr [] ∧
      isArray (fetchTxsResume { init 0 with txs := .arr [.num 1], accounts := .arr [acc1] }
        (.response true (some (.obj [("data", .arr [.num 2])])))).2.txs = true ∧
      isArray (fetchAccountsResume
        { init 0 with txs := .arr [.num 1], accounts := .arr [acc1] }
        (.response true (some (.obj [("accounts", .arr [acc2])])))).2.accounts = true ∧
      (fetchTxsResume { init 0 with txs := .arr [.num 1], accounts := .arr [acc1] }
        (.response true (some (.obj [("transactions", .str "abc")])))).2.txs =
        optProp (.obj [("transactions", .str "abc")]) "transactions" ∧
      (fetchAccountsResume { init 0 with txs := .arr [.num 1], accounts := .arr [acc1] }
        (.response true (some (.obj [("accounts", .num 5)])))).2.accounts =
        optProp (.obj [("accounts", .num 5)]) "accounts" :=
  ⟨congrArg (fun r => r.2.txs)
      ((C7_missing_fields_amended
        { init 0 with txs := .arr [.num 1], accounts := .arr [acc1] } .null false none).1
        rfl rfl),
    congrArg (fun r => r.2.accounts)
      ((C7_missing_fields_amended
        { init 0 with txs := .arr [.num 1], accounts := .arr [acc1] } .null true none).2.1
        rfl rfl),
    (C7_missing_fields_amended
        { init 0 with txs := .arr [.num 1], accounts := .arr [acc1] }
        (.obj [("data", .arr [.num 2])]) true none).2.2.2.1 rfl rfl,
    (C7_missing_fields_amended
        { init 0 with txs := .arr [.num 1], accounts := .arr [acc1] }
        (.obj [("accounts", .arr [acc2])]) true none).2.2.2.2.1 rfl rfl,
    (C7_missing_fields_amended
        { init 0 with txs := .arr [.num 1], accounts := .arr [acc1] }
        (.obj [("transactions", .str "abc")]) true none).2.2.2.2.2.1 rfl,
    (C7_missing_fields_amended
        { init 0 with txs := .arr [.num 1], accounts := .arr [acc1] }
        (.obj [("accounts", .num 5)]) true none).2.2.2.2.2.2 rfl⟩

/-! ## Claims about the transfer submission -/

/-- C5: when the form is mounted and its request is sent (the identifier `API`
resolves to `base`), and the gateway answers with a non-success status and the
JSON body `B`, then the whole effect of the submission and of its completion
is one `POST` of the form state followed by one `alert` of `B`: no transaction
fetch is issued, nothing is sent again, no promise rejects, and the snapshot,
the poller and the in-flight list are as before. -/
theorem C5_rejected_transfer_reports_body (env : Env) (s : AppState) (f : Form)
    (a : JSVal) (base : String) (B : JSVal)
    (hf : s.form = some f) (hs : s.selected = some a) (hapi : env.globalAPI = some base) :
    complete env s.inflight.length (.response false (some B)) (onSubmit env s) =
      { s with effects := s.effects ++ [.postTransfer base f, .alertJson B] } := by
  rcases s with ⟨acc, sel, txs, pr, tm, tc, form, infl, eff, unc⟩
  rcases env with ⟨vb, g⟩
  simp only at hf hs hapi
  subst hf hs hapi
  have h1 : onSubmit ⟨vb, some base⟩
      ⟨acc, some a, txs, pr, tm, tc, some f, infl, eff, unc⟩ =
      ⟨acc, some a, txs, pr, tm, tc, some f, infl ++ [.transfer (accountKey a)],
        eff ++ [.postTransfer base f], unc⟩ := rfl
  rw [h1, complete_last_transfer _ _ infl (accountKey a) _ rfl]
  simp [submitResume, settle]

/-- Witness of C5: the transfer
`{fromAccountId: "acc-1", toIban: "TR00", amount: "50", description: "x"}`
answered by HTTP 400 with body `{error: "insufficient funds"}`. -/
theorem C5_rejected_transfer_reports_body_witness :
    (run pageWithGlobalAPI (init 0) [.select acc1, .editToIban "TR00", .editAmount "50",
        .editDescription "x"]).form = some ⟨.str "acc-1", "TR00", "50", "x"⟩ ∧
      complete pageWithGlobalAPI
          (run pageWithGlobalAPI (init 0) [.select acc1, .editToIban "TR00",
            .editAmount "50", .editDescription "x"]).inflight.length
          (.response false (some (.obj [("error", .str "insufficient funds")])))
          (onSubmit pageWithGlobalAPI
            (run pageWithGlobalAPI (init 0) [.select acc1, .editToIban "TR00",
              .editAmount "50", .editDescription "x"])) =
        { run pageWithGlobalAPI (init 0) [.select acc1, .editToIban "TR00",
            .editAmount "50", .editDescription "x"] with
          effects :=
            (run pageWithGlobalAPI (init 0) [.select acc1, .editToIban "TR00",
              .editAmount "50", .editDescription "x"]).effects ++
              [.postTransfer "" ⟨.str "acc-1", "TR00", "50", "x"⟩,
                .alertJson (.obj [("error", .str "insufficient funds")])] } :=
  ⟨rfl, C5_rejected_transfer_reports_body pageWithGlobalAPI _
    ⟨.str "acc-1", "TR00", "50", "x"⟩ acc1 ""
    (.obj [("error", .str "insufficient funds")]) rfl rfl rfl⟩

/-- C3: in a page where the identifier `API` does not resolve from
`TransferForm`, `submit` throws a `ReferenceError` before it calls `fetch`,
for every form state.  After a click on `{id: "acc-1"}`, filling the form and
submitting it, the only request ever issued is the transaction fetch of the
click: no `POST` is sent, and the rejection of `submit` is uncaught. -/
theorem C3_submit_sends_nothing_without_global_API :
    (∀ (f : Form) (id : JSVal) (s : AppState),
        submit plainPage f id s = .error .referenceError) ∧
      (run plainPage (init 0) [.select acc1, .editToIban "TR00", .editAmount "50",
          .editDescription "x", .submit]).effects =
        [.getTransactions "" (.str "acc-1")] ∧
      (run plainPage (init 0) [.select acc1, .editToIban "TR00", .editAmount "50",
          .editDescription "x", .submit]).uncaught = [.referenceError] ∧
      (run plainPage (init 0) [.select acc1, .editToIban "TR00", .editAmount "50",
          .editDescription "x", .submit]).inflight = [.txs] :=
  ⟨fun _ _ _ => rfl, rfl, rfl, rfl⟩

/-- C2: after a click on `{id: "acc-1"}` and then on `{id: "acc-2"}`, the form
stays mounted and keeps `fromAccountId = "acc-1"`; submitting it (in a page
where `API` resolves, so that a request is sent) posts a body whose
`fromAccountId` is `"acc-1"` while the selected account is `{id: "acc-2"}`. -/
theorem C2_stale_fromAccountId_after_reselect :
    (run pageWithGlobalAPI (init 0) [.select acc1, .select acc2, .editToIban "TR00",
        .editAmount "50", .submit]).selected = some acc2 ∧
      (run pageWithGlobalAPI (init 0) [.select acc1, .select acc2, .editToIban "TR00",
        .editAmount "50"]).form =
        some ⟨.str "acc-1", "TR00", "50", "Test payment via sandbox"⟩ ∧
      (run pageWithGlobalAPI (init 0) [.select acc1, .select acc2, .editToIban "TR00",
        .editAmount "50", .submit]).effects =
        [.getTransactions "" (.str "acc-1"), .getTransactions "" (.str "acc-2"),
          .postTransfer "" ⟨.str "acc-1", "TR00", "50", "Test payment via sandbox"⟩] ∧
      (run plainPage (init 0) [.select acc1, .select acc2]).form =
        some ⟨.str "acc-1", "", "", "Test payment via sandbox"⟩ ∧
      JSVal.str "acc-1" ≠ accountKey acc2 := by
  refine ⟨rfl, rfl, rfl, rfl, ?_⟩
  intro h
  have h2 : JSVal.str "acc-1" = JSVal.str "acc-2" := h
  injection h2 with h3
  exact absurd h3 (by decide)

/-- C4: after a click on `{id: "acc-1"}` and then on `{id: "acc-2"}`, a
submitted transfer that the gateway accepts carries `fromAccountId = "acc-1"`,
and the one extra transaction fetch it triggers is for `"acc-2"`; the timer
table and `pollRef.current` are the same before and after. -/
theorem C4_refresh_targets_selection_not_request :
    (run pageWithGlobalAPI (init 0) [.select acc1, .select acc2, .submit,
        .complete 2 (.response true (some (.obj [])))]).effects =
        [.getTransactions "" (.str "acc-1"), .getTransactions "" (.str "acc-2"),
          .postTransfer "" ⟨.str "acc-1", "", "", "Test payment via sandbox"⟩,
          .getTransactions "" (.str "acc-2")] ∧
      pollerView (run pageWithGlobalAPI (init 0) [.select acc1, .select acc2, .submit,
        .complete 2 (.response true (some (.obj [])))]) =
        pollerView (run pageWithGlobalAPI (init 0) [.select acc1, .select acc2]) ∧
      JSVal.str "acc-2" ≠ JSVal.str "acc-1" := by
  refine ⟨rfl, rfl, ?_⟩
  intro h
  injection h with h3
  exact absurd h3 (by decide)

/-! ## Claims about failures -/

/-- C9, as stated, fails: when the request of `fetchTxs("acc-1")` ends in a
network error the promise of `fetchTxs` rejects, and after a click on
`{id: "acc-1"}` whose immediate fetch ends that way the rejection is
uncaught. -/
theorem C9_network_error_is_uncaught :
    (fetchTxsResume (fetchTxs plainPage (.str "acc-1") (init 0)) .networkError).1 =
        .rejected .networkError ∧
      (run plainPage (init 0) [.select acc1, .complete 0 .networkError]).uncaught =
        [.networkError] :=
  ⟨rfl, rfl⟩

/-- C9, amended: a failure is handled only where the code tests `r.ok`.  On a
non-success status `fetchAccounts` completes after `alert("Auth first (Login)")`
and the continuation of `submit`, when the body is JSON, completes after an
`alert` of that body; `fetchTxs` does not test the status and completes
whenever the body is JSON.  A network error in any of the three, and a body
that is not valid JSON wherever the body is read, make the promise reject. -/
theorem C9_failures_handled_only_at_ok_tests (env : Env) (s : AppState) (id : JSVal) :
    (∀ body, fetchAccountsResume s (.response false body) =
        (.fulfilled, { s with effects := s.effects ++ [.alertText "Auth first (Login)"] })) ∧
      (∀ data, submitResume env id s (.response false (some data)) =
        (.fulfilled, { s with effects := s.effects ++ [.alertJson data] })) ∧
      (∀ ok data, (fetchTxsResume s (.response ok (some data))).1 = .fulfilled) ∧
      (fetchAccountsResume s .networkError = (.rejected .networkError, s) ∧
        fetchTxsResume s .networkError = (.rejected .networkError, s) ∧
        submitResume env id s .networkError = (.rejected .networkError, s)) ∧
      (fetchAccountsResume s (.response true none) = (.rejected .parseError, s) ∧
        (∀ ok, fetchTxsResume s (.response ok none) = (.rejected .parseError, s)) ∧
        (∀ ok, submitResume env id s (.response ok none) = (.rejected .parseError, s))) := by
  refine ⟨fun _ => rfl, fun _ => rfl, fun _ _ => rfl, ⟨rfl, rfl, rfl⟩, rfl, fun _ => rfl, ?_⟩
  intro ok
  cases ok <;> rfl

end KuveytApp
